import Mathlib

/-!
Shallow embedding of the browser-side `PerformanceTester` audit/report
pipeline (metrics collection, the audit checks, score aggregation,
recommendation generation).  JS numbers are modelled as rationals and
the JS `Math.round` as floor of `q + 1/2` (round half toward positive
infinity), which is exact for the finite values arising here.
-/

/-- JS `Math.round`: round half up, i.e. the floor of `q + 1/2`. -/
def jsRound (q : ℚ) : ℤ := ⌊q + 1 / 2⌋

/-- Decidable substring test on character lists: does the second list
start with the first? -/
def charsPrefix : List Char → List Char → Bool
  | [], _ => true
  | _ :: _, [] => false
  | a :: as, b :: bs => a == b && charsPrefix as bs

/-- Decidable substring test on character lists, used to model the JS
`String.prototype.includes`. -/
def charsSubstr (pat : List Char) : List Char → Bool
  | [] => charsPrefix pat []
  | c :: rest => charsPrefix pat (c :: rest) || charsSubstr pat rest

/-- JS `s.includes(pat)`: `pat` occurs as a contiguous substring of `s`. -/
def strIncludes (s pat : String) : Bool := charsSubstr pat.toList s.toList

/-- One `img` element, restricted to the fields the checks read. -/
structure ImageElement where
  naturalWidth : ℕ
  offsetWidth : ℕ
  alt : String
  src : String
deriving DecidableEq

/-- One `link` element; `href = none` models an absent href attribute
(whose `href` property reads as the empty string). -/
structure LinkElement where
  rel : String
  href : Option String
deriving DecidableEq

/-- The `href` property of a link: the attribute value, or `""` when the
attribute is absent. -/
def hrefProp (l : LinkElement) : String := l.href.getD ""

/-- One element matched by the `button, a, input, [role]` selector,
restricted to the fields `checkAriaLabels` reads. -/
structure InteractiveElement where
  ariaLabel : Option String
  textContent : String
  title : Option String
deriving DecidableEq

/-- The DOM and location state read by the twelve-plus audit checks:
images, link elements, `script[src]` elements, interactive elements,
`meta[name=...]` names present, heading levels in document order, tag
names with at least one element in the document, and the page protocol. -/
structure Dom where
  images : List ImageElement
  links : List LinkElement
  scriptSrcs : List String
  interactive : List InteractiveElement
  metaNames : List String
  headingLevels : List ℕ
  presentTags : List String
  protocol : String
deriving DecidableEq

structure ImageOptimizationResult where
  score : ℚ
  issues : List String
deriving DecidableEq

structure CSSSizeResult where
  score : ℚ
  size : ℚ
deriving DecidableEq

structure JSSizeResult where
  score : ℚ
  size : ℚ
deriving DecidableEq

structure FontLoadingResult where
  score : ℚ
  warning : Option String
deriving DecidableEq

structure HTTPSResult where
  score : ℚ
  secure : Bool
deriving DecidableEq

structure ConsoleErrorsResult where
  score : ℚ
  errors : List String
deriving DecidableEq

structure DeprecatedAPIResult where
  score : ℚ
  deprecated : List String
deriving DecidableEq

structure AltTagsResult where
  score : ℚ
  missing : ℕ
deriving DecidableEq

structure AriaLabelsResult where
  score : ℚ
  unlabeled : ℕ
deriving DecidableEq

structure ColorContrastResult where
  score : ℚ
  warning : String
deriving DecidableEq

structure MetaTagsResult where
  score : ℚ
  missing : List String
deriving DecidableEq

structure HeadingStructureResult where
  score : ℚ
  errors : ℕ
deriving DecidableEq

structure SemanticHTMLResult where
  score : ℚ
  missing : List String
deriving DecidableEq

/-- `checkImageOptimization`: 20-point deduction per image whose natural
width exceeds twice its rendered width, floored at 0. -/
def checkImageOptimization (d : Dom) : ImageOptimizationResult :=
  let largeImages := d.images.filter (fun img => decide (img.naturalWidth > img.offsetWidth * 2))
  { score := if largeImages.length = 0 then 100 else max 0 (100 - (largeImages.length : ℚ) * 20)
    issues := largeImages.map (fun img => "Image \"" ++ img.src ++ "\" is larger than needed") }

/-- The per-stylesheet condition of `checkCSSSize`: a truthy `href` that
does not contain `fonts.googleapis.com`. -/
def countsTowardCSSSize (sheet : LinkElement) : Bool :=
  decide (hrefProp sheet ≠ "") && !(strIncludes (hrefProp sheet) "fonts.googleapis.com")

/-- `checkCSSSize`: each counted stylesheet link contributes a simulated
5000 bytes; 100 below a 10000-byte budget, else a linear penalty. -/
def checkCSSSize (d : Dom) : CSSSizeResult :=
  let stylesheets := d.links.filter (fun l => decide (l.rel = "stylesheet"))
  let totalSize : ℚ :=
    stylesheets.foldl (fun acc sheet => if countsTowardCSSSize sheet then acc + 5000 else acc) 0
  { score := if totalSize < 10000 then 100 else max 0 (100 - (totalSize - 10000) / 1000)
    size := totalSize }

/-- `checkJSSize`: each `script[src]` contributes a simulated 10000
bytes; 100 below a 30000-byte budget, else a linear penalty. -/
def checkJSSize (d : Dom) : JSSizeResult :=
  let totalSize : ℚ := (d.scriptSrcs.length : ℚ) * 10000
  { score := if totalSize < 30000 then 100 else max 0 (100 - (totalSize - 30000) / 1000)
    size := totalSize }

/-- `checkFontLoading`: 100 when at most two links have an href
containing `fonts.googleapis.com`, else 50 with a warning. -/
def checkFontLoading (d : Dom) : FontLoadingResult :=
  let fonts := d.links.filter (fun l =>
    match l.href with
    | some h => strIncludes h "fonts.googleapis.com"
    | none => false)
  { score := if fonts.length ≤ 2 then 100 else 50
    warning := if fonts.length > 2 then some "Too many font requests" else none }

/-- `checkHTTPS`: 100 when the page protocol is `https:`, else 0. -/
def checkHTTPS (d : Dom) : HTTPSResult :=
  { score := if d.protocol = "https:" then 100 else 0
    secure := decide (d.protocol = "https:") }

/-- `checkConsoleErrors`: a stub that always reports 100 and no errors. -/
def checkConsoleErrors : ConsoleErrorsResult :=
  { score := 100
    errors := [] }

/-- `checkDeprecatedAPI`: 0 when any of four obsolete tags is present,
else 100. -/
def checkDeprecatedAPI (d : Dom) : DeprecatedAPIResult :=
  let deprecatedSelectors := ["applet", "marquee", "frameset", "frame"]
  let found := deprecatedSelectors.filter (fun selector => d.presentTags.contains selector)
  { score := if found.length = 0 then 100 else 0
    deprecated := found }

/-- `checkAltTags`: rounded percentage of images with non-empty alt
text; 100 when there are no images. -/
def checkAltTags (d : Dom) : AltTagsResult :=
  let images := d.images
  let missingAlt := images.filter (fun img => decide (img.alt = ""))
  { score :=
      if images.length = 0 then 100
      else (jsRound ((1 - (missingAlt.length : ℚ) / (images.length : ℚ)) * 100) : ℚ)
    missing := missingAlt.length }

/-- JS falsiness of `getAttribute` results: `null` (absent) or `""`. -/
def attrFalsy (s : Option String) : Bool := decide (s.getD "" = "")

/-- `checkAriaLabels`: rounded percentage of interactive elements that
have an aria-label, visible text, or title; 100 when there are none. -/
def checkAriaLabels (d : Dom) : AriaLabelsResult :=
  let unlabeled := d.interactive.filter (fun el =>
    attrFalsy el.ariaLabel && decide (el.textContent.trim = "") && attrFalsy el.title)
  { score :=
      if d.interactive.length = 0 then 100
      else (jsRound ((1 - (unlabeled.length : ℚ) / (d.interactive.length : ℚ)) * 100) : ℚ)
    unlabeled := unlabeled.length }

/-- `checkColorContrast`: a stub that always reports 85 with a warning. -/
def checkColorContrast : ColorContrastResult :=
  { score := 85
    warning := "Run detailed contrast check with browser tools" }

/-- `checkMetaTags`: rounded percentage of the required meta names
(description, viewport) present in the document. -/
def checkMetaTags (d : Dom) : MetaTagsResult :=
  let requiredMeta := ["description", "viewport"]
  let presentMeta := requiredMeta.filter (fun m => d.metaNames.contains m)
  { score := (jsRound (((presentMeta.length : ℚ) / (requiredMeta.length : ℚ)) * 100) : ℚ)
    missing := requiredMeta.filter (fun m => !presentMeta.contains m) }

/-- `checkHeadingStructure`: scans heading levels in document order with
`lastLevel` starting at 0, counting each heading whose level exceeds
`lastLevel + 1`; 20-point deduction per violation, floored at 0. -/
def checkHeadingStructure (d : Dom) : HeadingStructureResult :=
  let headings := d.headingLevels
  let scan := headings.foldl
    (fun (st : ℕ × ℕ) level => (level, if level > st.1 + 1 then st.2 + 1 else st.2)) (0, 0)
  { score := if headings.length = 0 then 100 else max 0 (100 - (scan.2 : ℚ) * 20)
    errors := scan.2 }

/-- `checkSemanticHTML`: rounded percentage of the seven landmark tags
present in the document. -/
def checkSemanticHTML (d : Dom) : SemanticHTMLResult :=
  let semanticElements := ["header", "nav", "main", "section", "article", "aside", "footer"]
  let present := semanticElements.filter (fun tag => d.presentTags.contains tag)
  { score := (jsRound (((present.length : ℚ) / (semanticElements.length : ℚ)) * 100) : ℚ)
    missing := semanticElements.filter (fun tag => !present.contains tag) }

/-- The nested audit structure produced by `runAudit`: thirteen check
results grouped into the four fixed categories. -/
structure Audit where
  imageOptimization : ImageOptimizationResult
  cssSize : CSSSizeResult
  jsSize : JSSizeResult
  fontLoading : FontLoadingResult
  https : HTTPSResult
  consoleErrors : ConsoleErrorsResult
  deprecatedAPI : DeprecatedAPIResult
  altTags : AltTagsResult
  ariaLabels : AriaLabelsResult
  colorContrast : ColorContrastResult
  metaTags : MetaTagsResult
  headingStructure : HeadingStructureResult
  semanticHTML : SemanticHTMLResult
deriving DecidableEq

/-- `runAudit`: runs every check against the DOM state and collects the
results. -/
def runAudit (d : Dom) : Audit :=
  { imageOptimization := checkImageOptimization d
    cssSize := checkCSSSize d
    jsSize := checkJSSize d
    fontLoading := checkFontLoading d
    https := checkHTTPS d
    consoleErrors := checkConsoleErrors
    deprecatedAPI := checkDeprecatedAPI d
    altTags := checkAltTags d
    ariaLabels := checkAriaLabels d
    colorContrast := checkColorContrast
    metaTags := checkMetaTags d
    headingStructure := checkHeadingStructure d
    semanticHTML := checkSemanticHTML d }

/-- The `score` fields of `Object.values(audit.performance)`, in
insertion order; every item of the category object has a score, so each
entry is `some`. -/
def Audit.performanceScores (a : Audit) : List (Option ℚ) :=
  [some a.imageOptimization.score, some a.cssSize.score, some a.jsSize.score,
   some a.fontLoading.score]

/-- The `score` fields of `Object.values(audit.bestPractices)`. -/
def Audit.bestPracticesScores (a : Audit) : List (Option ℚ) :=
  [some a.https.score, some a.consoleErrors.score, some a.deprecatedAPI.score]

/-- The `score` fields of `Object.values(audit.accessibility)`. -/
def Audit.accessibilityScores (a : Audit) : List (Option ℚ) :=
  [some a.altTags.score, some a.ariaLabels.score, some a.colorContrast.score]

/-- The `score` fields of `Object.values(audit.seo)`. -/
def Audit.seoScores (a : Audit) : List (Option ℚ) :=
  [some a.metaTags.score, some a.headingStructure.score, some a.semanticHTML.score]

/-- All thirteen leaf check scores of an audit, category order. -/
def Audit.allLeafScores (a : Audit) : List ℚ :=
  [a.imageOptimization.score, a.cssSize.score, a.jsSize.score, a.fontLoading.score,
   a.https.score, a.consoleErrors.score, a.deprecatedAPI.score,
   a.altTags.score, a.ariaLabels.score, a.colorContrast.score,
   a.metaTags.score, a.headingStructure.score, a.semanticHTML.score]

/-- JS `item.score || 0`: an absent score reads as `undefined` and a
zero score is falsy, so both default to 0. -/
def scoreOrZero (s : Option ℚ) : ℚ :=
  match s with
  | none => 0
  | some q => if q = 0 then 0 else q

/-- `calculateCategoryScore`: rounded arithmetic mean of the items'
scores, absent scores defaulting to 0. -/
def calculateCategoryScore (items : List (Option ℚ)) : ℚ :=
  let scores := items.map scoreOrZero
  (jsRound (scores.foldl (fun sum score => sum + score) 0 / (scores.length : ℚ)) : ℚ)

structure ScoreSet where
  performance : ℚ
  accessibility : ℚ
  bestPractices : ℚ
  seo : ℚ
  overall : ℚ
deriving DecidableEq

/-- `calculateScores`: the fixed placeholder ScoreSet when no audit has
been stored, otherwise the four category scores and the rounded mean of
those (already rounded) category scores. -/
def calculateScores (audit : Option Audit) : ScoreSet :=
  match audit with
  | none => { performance := 85, accessibility := 90, bestPractices := 88, seo := 92, overall := 89 }
  | some a =>
    let performance := calculateCategoryScore a.performanceScores
    let accessibility := calculateCategoryScore a.accessibilityScores
    let bestPractices := calculateCategoryScore a.bestPracticesScores
    let seo := calculateCategoryScore a.seoScores
    let overall := (jsRound ((performance + accessibility + bestPractices + seo) / 4) : ℚ)
    { performance := performance, accessibility := accessibility,
      bestPractices := bestPractices, seo := seo, overall := overall }

/-- `generateRecommendations`: starting from an empty list, appends one
fixed advisory string for each of the four low-score conditions, in the
source's order; empty when no audit has been stored. -/
def generateRecommendations (audit : Option Audit) : List String :=
  let recommendations : List String := []
  match audit with
  | none => recommendations
  | some a =>
    let recommendations :=
      if a.imageOptimization.score < 80 then
        recommendations ++ ["Optimize images by resizing to appropriate dimensions"]
      else recommendations
    let recommendations :=
      if a.cssSize.score < 80 then
        recommendations ++ ["Minify and compress CSS files"]
      else recommendations
    let recommendations :=
      if a.altTags.score < 100 then
        recommendations ++ ["Add alt text to all images"]
      else recommendations
    let recommendations :=
      if a.metaTags.score < 100 then
        recommendations ++ ["Add missing meta tags (description, viewport)"]
      else recommendations
    recommendations

/-- JS falsiness of the `startTime` variable in `measureFPS`: `null`
before the first callback, and still falsy if it was assigned 0. -/
def startTimeFalsy (s : Option ℚ) : Bool :=
  match s with
  | none => true
  | some t => decide (t = 0)

/-- The `measureFrame` recursion of `measureFPS`, driven by the list of
animation-frame callback timestamps; `none` models a promise that never
resolves because the frame source stopped firing. -/
def measureFPSAux (duration : ℚ) (frames : ℕ) (startTime : Option ℚ) :
    List ℚ → Option ℤ
  | [] => none
  | timestamp :: rest =>
    let startTime := if startTimeFalsy startTime then some timestamp else startTime
    let frames := frames + 1
    if timestamp - startTime.getD 0 < duration then
      measureFPSAux duration frames startTime rest
    else
      some (jsRound ((frames : ℚ) * 1000 / duration))

/-- `measureFPS(duration)` over a synthetic frame source given by the
list of callback timestamps. -/
def measureFPS (duration : ℚ) (timestamps : List ℚ) : Option ℤ :=
  measureFPSAux duration 0 none timestamps

/-- Frames counted until (and including) the first callback whose
timestamp has advanced `duration` or more past `startTime`; `none` when
no callback ever does. -/
def framesUntilResolve (startTime duration : ℚ) : List ℚ → Option ℕ
  | [] => none
  | timestamp :: rest =>
    if timestamp - startTime < duration then
      (framesUntilResolve startTime duration rest).map (fun n => n + 1)
    else
      some 1

/-- The claim's frame count: callbacks fired within the wall-clock
window of `duration` milliseconds starting at the first callback's
timestamp (the window taken closed on both ends). -/
def windowFrameCount (duration : ℚ) : List ℚ → ℕ
  | [] => 0
  | t0 :: rest => ((t0 :: rest).filter (fun t => decide (t ≤ t0 + duration))).length

/-- A synthetic frame source: 60 callbacks evenly spaced across the
closed 1000 ms window starting at the first callback's timestamp. -/
def evenFrames : List ℚ :=
  (List.range 60).map (fun k => 100 + (k : ℚ) * (1000 / 59))

/-- One raw resource-timing entry as read from the Performance API;
`transferSize = none` models an absent field. -/
structure PerfResource where
  name : String
  duration : ℚ
  transferSize : Option ℚ
  initiatorType : String
deriving DecidableEq

/-- One mapped resource record (`resource.transferSize || 0`). -/
structure ResourceEntry where
  name : String
  duration : ℚ
  size : ℚ
  type : String
deriving DecidableEq

/-- JS `x || 0` on an optional number: absent and 0 are falsy. -/
def numOrZero (o : Option ℚ) : ℚ :=
  match o with
  | none => 0
  | some q => if q = 0 then 0 else q

/-- The mapping step of `measureResources`. -/
def toResourceEntry (r : PerfResource) : ResourceEntry :=
  { name := r.name
    duration := r.duration
    size := numOrZero r.transferSize
    type := r.initiatorType }

/-- One per-type summary bucket of `metrics.resourceSummary`. -/
structure ResourceSummary where
  count : ℕ
  totalSize : ℚ
  averageTime : ℚ
  items : List ResourceEntry
deriving DecidableEq

/-- The freshly created bucket (`{count: 0, totalSize: 0, averageTime:
0, items: []}`). -/
def emptySummary : ResourceSummary :=
  { count := 0, totalSize := 0, averageTime := 0, items := [] }

/-- One reduce step on a bucket: bump the count, add the size, push the
item. -/
def addToSummary (s : ResourceSummary) (r : ResourceEntry) : ResourceSummary :=
  { count := s.count + 1
    totalSize := s.totalSize + r.size
    averageTime := s.averageTime
    items := s.items ++ [r] }

/-- One step of the grouping reduce: update the bucket keyed by the
entry's type, creating it at the end when absent (JS object key
insertion order). -/
def insertResource (acc : List (String × ResourceSummary)) (r : ResourceEntry) :
    List (String × ResourceSummary) :=
  match acc with
  | [] => [(r.type, addToSummary emptySummary r)]
  | (k, s) :: rest =>
    if k = r.type then (k, addToSummary s r) :: rest
    else (k, s) :: insertResource rest r

/-- The grouping reduce of `measureResources`. -/
def groupResources (entries : List ResourceEntry) : List (String × ResourceSummary) :=
  entries.foldl insertResource []

/-- The second pass of `measureResources` on one bucket: averageTime
becomes the sum of the items' durations divided by the count. -/
def withAverageTime (s : ResourceSummary) : ResourceSummary :=
  { s with averageTime :=
      (s.items.map ResourceEntry.duration).foldl (fun sum item => sum + item) 0 /
        (s.count : ℚ) }

/-- The second pass of `measureResources` over every bucket. -/
def setAverageTimes (acc : List (String × ResourceSummary)) :
    List (String × ResourceSummary) :=
  acc.map (fun p => (p.1, withAverageTime p.2))

/-- `measureResources`: maps the raw entries and groups them by type
into per-type summaries, then fills in the average times. -/
def measureResources (resources : List PerfResource) :
    List ResourceEntry × List (String × ResourceSummary) :=
  let entries := resources.map toResourceEntry
  (entries, setAverageTimes (groupResources entries))

/-- The `metrics.resourceSummary` value produced by `measureResources`. -/
def resourceSummary (resources : List PerfResource) : List (String × ResourceSummary) :=
  (measureResources resources).2

/-- Association-list lookup on the summary structure, modelling
`summary[type]` access. -/
def lookupType (t : String) : List (String × ResourceSummary) → Option ResourceSummary
  | [] => none
  | (k, s) :: rest => if k = t then some s else lookupType t rest

/-- Integer score in the closed interval from 0 to 100. -/
def validScore (q : ℚ) : Prop := 0 ≤ q ∧ q ≤ 100 ∧ ∃ k : ℤ, q = (k : ℚ)

/-- Mean of a list of rationals, as computed by the JS sum-then-divide. -/
def listMean (l : List ℚ) : ℚ := l.sum / (l.length : ℚ)

/-- The spec's two-stage overall formula: round each category's mean of
leaf scores, then round the mean of the four rounded category scores. -/
def specTwoStageOverall (a : Audit) : ℚ :=
  (jsRound
    (((jsRound (listMean [a.imageOptimization.score, a.cssSize.score, a.jsSize.score,
        a.fontLoading.score]) : ℚ) +
      (jsRound (listMean [a.altTags.score, a.ariaLabels.score, a.colorContrast.score]) : ℚ) +
      (jsRound (listMean [a.https.score, a.consoleErrors.score, a.deprecatedAPI.score]) : ℚ) +
      (jsRound (listMean [a.metaTags.score, a.headingStructure.score,
        a.semanticHTML.score]) : ℚ)) / 4) : ℚ)

/-- The single-stage alternative the spec rules out: round the mean of
all leaf scores directly. -/
def specSingleStageOverall (a : Audit) : ℚ :=
  (jsRound (listMean a.allLeafScores) : ℚ)

/-- The claim-as-written violation count for the heading check: a
heading counts only when an immediately preceding heading exists and the
level jump from it exceeds one. -/
def specLevelJumpCount : List ℕ → ℕ
  | [] => 0
  | [_] => 0
  | a :: b :: rest => (if b > a + 1 then 1 else 0) + specLevelJumpCount (b :: rest)

/-- Violations as the code scans them: count headings whose level
exceeds the previous level plus one, the level before the first heading
taken to be 0. -/
def levelJumpCountFrom (prev : ℕ) : List ℕ → ℕ
  | [] => 0
  | level :: rest => (if level > prev + 1 then 1 else 0) + levelJumpCountFrom level rest

/-- The stylesheet links that contribute 5000 simulated bytes in
`checkCSSSize`. -/
def cssCountedLinks (d : Dom) : List LinkElement :=
  (d.links.filter (fun l => decide (l.rel = "stylesheet"))).filter countsTowardCSSSize

/-- A DOM with nothing in it. -/
def emptyDom : Dom :=
  { images := [], links := [], scriptSrcs := [], interactive := [], metaNames := [],
    headingLevels := [], presentTags := [], protocol := "" }

/-- Four images of which exactly one is missing alt text. -/
def fourImageDom : Dom :=
  { emptyDom with images :=
      [{ naturalWidth := 0, offsetWidth := 0, alt := "hero", src := "a.png" },
       { naturalWidth := 0, offsetWidth := 0, alt := "pic", src := "b.png" },
       { naturalWidth := 0, offsetWidth := 0, alt := "logo", src := "c.png" },
       { naturalWidth := 0, offsetWidth := 0, alt := "", src := "d.png" }] }

/-- A document whose single heading is an h2. -/
def loneH2Dom : Dom := { emptyDom with headingLevels := [2] }

/-- Headings h1, h2, h4 in document order. -/
def h124Dom : Dom := { emptyDom with headingLevels := [1, 2, 4] }

/-- Headings h1, h2, h3 in document order. -/
def h123Dom : Dom := { emptyDom with headingLevels := [1, 2, 3] }

/-- A page whose only stylesheet links point at Google Fonts. -/
def googleFontsDom : Dom :=
  { emptyDom with links :=
      [{ rel := "stylesheet", href := some "https://fonts.googleapis.com/css?family=Inter" },
       { rel := "stylesheet", href := some "https://fonts.googleapis.com/css?family=Lato" }] }

/-- A page with three counted stylesheet links. -/
def threeCssDom : Dom :=
  { emptyDom with links :=
      [{ rel := "stylesheet", href := some "a.css" },
       { rel := "stylesheet", href := some "b.css" },
       { rel := "stylesheet", href := some "c.css" }] }

/-- An audit whose performance leaves all score 99 and whose other nine
leaves all score 0: the two-stage overall is 25 while the single-stage
mean of the thirteen leaves rounds to 30. -/
def exampleAudit : Audit :=
  { imageOptimization := { score := 99, issues := [] }
    cssSize := { score := 99, size := 0 }
    jsSize := { score := 99, size := 0 }
    fontLoading := { score := 99, warning := none }
    https := { score := 0, secure := false }
    consoleErrors := { score := 0, errors := [] }
    deprecatedAPI := { score := 0, deprecated := [] }
    altTags := { score := 0, missing := 0 }
    ariaLabels := { score := 0, unlabeled := 0 }
    colorContrast := { score := 0, warning := "" }
    metaTags := { score := 0, missing := [] }
    headingStructure := { score := 0, errors := 0 }
    semanticHTML := { score := 0, missing := [] } }

/-- Two script resources with durations 100 and 300 and sizes 10 and 20. -/
def scriptResourceA : PerfResource :=
  { name := "a.js", duration := 100, transferSize := some 10, initiatorType := "script" }

/-- Second element of the resource-grouping example. -/
def scriptResourceB : PerfResource :=
  { name := "b.js", duration := 300, transferSize := some 20, initiatorType := "script" }

set_option maxHeartbeats 1000000

theorem jsRound_nonneg {q : ℚ} (h : 0 ≤ q) : 0 ≤ jsRound q := by
  unfold jsRound
  exact Int.le_floor.mpr (by push_cast; linarith)

theorem jsRound_le_hundred {q : ℚ} (h : q ≤ 100) : jsRound q ≤ 100 := by
  unfold jsRound
  exact Int.floor_le_iff.mpr (by push_cast; linarith)

theorem validScore_jsRound {q : ℚ} (h0 : 0 ≤ q) (h1 : q ≤ 100) :
    validScore (jsRound q : ℚ) :=
  ⟨by exact_mod_cast jsRound_nonneg h0, by exact_mod_cast jsRound_le_hundred h1,
   ⟨jsRound q, rfl⟩⟩

theorem validScore_hundred : validScore 100 :=
  ⟨by norm_num, le_refl 100, ⟨100, by norm_num⟩⟩

theorem validScore_const_zero : validScore 0 :=
  ⟨le_refl 0, by norm_num, ⟨0, by norm_num⟩⟩

theorem validScore_fifty : validScore 50 :=
  ⟨by norm_num, by norm_num, ⟨50, by norm_num⟩⟩

theorem validScore_eightyfive : validScore 85 :=
  ⟨by norm_num, by norm_num, ⟨85, by norm_num⟩⟩

theorem validScore_max_hundred_sub (k : ℤ) (hk : 0 ≤ k) :
    validScore (max 0 (100 - (k : ℚ))) := by
  refine ⟨le_max_left 0 _, ?_, ⟨max 0 (100 - k), ?_⟩⟩
  · refine max_le (by norm_num) ?_
    have : (0 : ℚ) ≤ (k : ℚ) := by exact_mod_cast hk
    linarith
  · push_cast
    rfl

theorem validScore_penalty (n : ℕ) : validScore (max 0 (100 - (n : ℚ) * 20)) := by
  have h := validScore_max_hundred_sub (20 * (n : ℤ)) (by positivity)
  convert h using 3
  push_cast
  ring

theorem foldl_add_eq_sum (l : List ℚ) :
    ∀ init : ℚ, l.foldl (fun sum score => sum + score) init = init + l.sum := by
  induction l with
  | nil => intro init; simp
  | cons x xs ih =>
    intro init
    simp [List.foldl_cons, ih, List.sum_cons]
    ring

theorem scoreOrZero_some (q : ℚ) : scoreOrZero (some q) = q := by
  unfold scoreOrZero
  by_cases h : q = 0 <;> simp [h]

theorem scoreOrZero_getD (s : Option ℚ) : scoreOrZero s = s.getD 0 := by
  cases s with
  | none => rfl
  | some q => simp [scoreOrZero_some]

theorem calculateCategoryScore_eq (items : List (Option ℚ)) :
    calculateCategoryScore items =
      (jsRound ((items.map (fun s => s.getD 0)).sum / (items.length : ℚ)) : ℚ) := by
  unfold calculateCategoryScore
  have hmap : scoreOrZero = fun s : Option ℚ => s.getD 0 := funext scoreOrZero_getD
  simp [hmap, foldl_add_eq_sum]

theorem foldl_cssSize (l : List LinkElement) :
    ∀ init : ℚ,
      l.foldl (fun acc sheet => if countsTowardCSSSize sheet then acc + 5000 else acc) init
        = init + 5000 * ((l.filter countsTowardCSSSize).length : ℚ) := by
  induction l with
  | nil => intro init; simp
  | cons x xs ih =>
    intro init
    by_cases h : countsTowardCSSSize x = true
    · simp [List.foldl_cons, h, ih, List.filter_cons]
      ring
    · simp [List.foldl_cons, h, ih, List.filter_cons]

theorem headingScan_errors (ls : List ℕ) :
    ∀ prev e : ℕ,
      (ls.foldl (fun (st : ℕ × ℕ) level =>
        (level, if level > st.1 + 1 then st.2 + 1 else st.2)) (prev, e)).2
        = e + levelJumpCountFrom prev ls := by
  induction ls with
  | nil => intro prev e; simp [levelJumpCountFrom]
  | cons x xs ih =>
    intro prev e
    by_cases h : x > prev + 1
    · simp [List.foldl_cons, h, ih, levelJumpCountFrom]
      omega
    · simp [List.foldl_cons, h, ih, levelJumpCountFrom]

theorem validScore_imageOptimization (d : Dom) :
    validScore (checkImageOptimization d).score := by
  unfold checkImageOptimization
  by_cases h :
      (d.images.filter (fun img => decide (img.naturalWidth > img.offsetWidth * 2))).length = 0
  · simp [h]
    exact validScore_hundred
  · simp [h]
    exact validScore_penalty _

theorem validScore_cssSize (d : Dom) : validScore (checkCSSSize d).score := by
  unfold checkCSSSize
  simp only [foldl_cssSize, zero_add]
  set n := ((d.links.filter (fun l => decide (l.rel = "stylesheet"))).filter
    countsTowardCSSSize).length with hn
  by_cases h : (5000 : ℚ) * (n : ℚ) < 10000
  · simp [h]
    exact validScore_hundred
  · simp [h]
    have hn2 : 2 ≤ n := by
      by_contra hc
      push_neg at hc
      interval_cases n <;> norm_num at h
    have hform : (100 : ℚ) - (5000 * (n : ℚ) - 10000) / 1000
        = 100 - ((5 * (n : ℤ) - 10 : ℤ) : ℚ) := by
      push_cast
      ring
    rw [hform]
    exact validScore_max_hundred_sub (5 * (n : ℤ) - 10) (by omega)

theorem validScore_jsSize (d : Dom) : validScore (checkJSSize d).score := by
  unfold checkJSSize
  set m := d.scriptSrcs.length with hm
  by_cases h : ((m : ℚ)) * 10000 < 30000
  · simp [h]
    exact validScore_hundred
  · simp [h]
    have hm3 : 3 ≤ m := by
      by_contra hc
      push_neg at hc
      interval_cases m <;> norm_num at h
    have hform : (100 : ℚ) - ((m : ℚ) * 10000 - 30000) / 1000
        = 100 - ((10 * (m : ℤ) - 30 : ℤ) : ℚ) := by
      push_cast
      ring
    rw [hform]
    exact validScore_max_hundred_sub (10 * (m : ℤ) - 30) (by omega)

theorem validScore_fontLoading (d : Dom) : validScore (checkFontLoading d).score := by
  unfold checkFontLoading
  by_cases h : (d.links.filter (fun l =>
      match l.href with
      | some h => strIncludes h "fonts.googleapis.com"
      | none => false)).length ≤ 2
  · simp [h]
    exact validScore_hundred
  · simp [h]
    exact validScore_fifty

theorem validScore_https (d : Dom) : validScore (checkHTTPS d).score := by
  unfold checkHTTPS
  by_cases h : d.protocol = "https:"
  · simp [h]
    exact validScore_hundred
  · simp [h]
    exact validScore_const_zero

theorem validScore_consoleErrors : validScore checkConsoleErrors.score := by
  unfold checkConsoleErrors
  exact validScore_hundred

theorem validScore_deprecatedAPI (d : Dom) :
    validScore (checkDeprecatedAPI d).score := by
  unfold checkDeprecatedAPI
  dsimp only
  split
  · exact validScore_hundred
  · exact validScore_const_zero

theorem validScore_coverage {m t : ℕ} (hm : m ≤ t) (ht : t ≠ 0) :
    validScore (jsRound ((1 - (m : ℚ) / (t : ℚ)) * 100) : ℚ) := by
  have htq : (0 : ℚ) < (t : ℚ) := by
    exact_mod_cast Nat.pos_of_ne_zero ht
  have hdiv0 : (0 : ℚ) ≤ (m : ℚ) / (t : ℚ) := by positivity
  have hdiv1 : (m : ℚ) / (t : ℚ) ≤ 1 := by
    rw [div_le_one htq]
    exact_mod_cast hm
  exact validScore_jsRound (by nlinarith) (by nlinarith)

theorem validScore_altTags (d : Dom) : validScore (checkAltTags d).score := by
  unfold checkAltTags
  by_cases h : d.images.length = 0
  · simp [h]
    exact validScore_hundred
  · simp [h]
    exact validScore_coverage (List.length_filter_le _ _) h

theorem validScore_ariaLabels (d : Dom) : validScore (checkAriaLabels d).score := by
  unfold checkAriaLabels
  by_cases h : d.interactive.length = 0
  · simp [h]
    exact validScore_hundred
  · simp [h]
    exact validScore_coverage (List.length_filter_le _ _) h

theorem validScore_colorContrast : validScore checkColorContrast.score := by
  unfold checkColorContrast
  exact validScore_eightyfive

theorem validScore_ratio {p t : ℕ} (hp : p ≤ t) (ht : t ≠ 0) :
    validScore (jsRound (((p : ℚ) / (t : ℚ)) * 100) : ℚ) := by
  have htq : (0 : ℚ) < (t : ℚ) := by
    exact_mod_cast Nat.pos_of_ne_zero ht
  have hdiv0 : (0 : ℚ) ≤ (p : ℚ) / (t : ℚ) := by positivity
  have hdiv1 : (p : ℚ) / (t : ℚ) ≤ 1 := by
    rw [div_le_one htq]
    exact_mod_cast hp
  exact validScore_jsRound (by nlinarith) (by nlinarith)

theorem validScore_metaTags (d : Dom) : validScore (checkMetaTags d).score := by
  unfold checkMetaTags
  have hp : (List.filter (fun m => d.metaNames.contains m)
      ["description", "viewport"]).length ≤ 2 := List.length_filter_le _ _
  simpa using validScore_ratio hp (by norm_num)

theorem validScore_headingStructure (d : Dom) :
    validScore (checkHeadingStructure d).score := by
  unfold checkHeadingStructure
  by_cases h : d.headingLevels.length = 0
  · simp [h]
    exact validScore_hundred
  · simp [h]
    exact validScore_penalty _

theorem validScore_semanticHTML (d : Dom) : validScore (checkSemanticHTML d).score := by
  unfold checkSemanticHTML
  have hp : (List.filter (fun tag => d.presentTags.contains tag)
      ["header", "nav", "main", "section", "article", "aside", "footer"]).length ≤ 7 :=
    List.length_filter_le _ _
  simpa using validScore_ratio hp (by norm_num)

/-- C3: for every DOM state, every audit check function returns a result
whose score is an integer in the closed interval from 0 to 100; in
particular the linear byte-budget penalties of `checkCSSSize` and
`checkJSSize` never produce a negative, above-100, or non-integer score.
(The code defines thirteen checks, 4 + 3 + 3 + 3 across the four
categories; the invariant is proved for every one of them.) -/
theorem auditCheckScores_integer_in_range (d : Dom) :
    validScore (checkImageOptimization d).score ∧
    validScore (checkCSSSize d).score ∧
    validScore (checkJSSize d).score ∧
    validScore (checkFontLoading d).score ∧
    validScore (checkHTTPS d).score ∧
    validScore checkConsoleErrors.score ∧
    validScore (checkDeprecatedAPI d).score ∧
    validScore (checkAltTags d).score ∧
    validScore (checkAriaLabels d).score ∧
    validScore checkColorContrast.score ∧
    validScore (checkMetaTags d).score ∧
    validScore (checkHeadingStructure d).score ∧
    validScore (checkSemanticHTML d).score :=
  ⟨validScore_imageOptimization d, validScore_cssSize d, validScore_jsSize d,
   validScore_fontLoading d, validScore_https d, validScore_consoleErrors,
   validScore_deprecatedAPI d, validScore_altTags d, validScore_ariaLabels d,
   validScore_colorContrast, validScore_metaTags d, validScore_headingStructure d,
   validScore_semanticHTML d⟩

/-- C4: when no audit has been run (the metrics store has no audit
entry), `calculateScores` returns exactly the placeholder ScoreSet with
performance 85, accessibility 90, bestPractices 88, seo 92, overall 89. -/
theorem calculateScores_placeholder :
    calculateScores none =
      { performance := 85, accessibility := 90, bestPractices := 88, seo := 92,
        overall := 89 } :=
  rfl

/-- C2: for every nonempty category mapping, `calculateCategoryScore`
returns the arithmetic mean of the checks' score fields rounded half-up,
a check with an absent score contributing 0; in particular checks
scoring 100, 80, 60 yield category score 80. -/
theorem calculateCategoryScore_rounded_mean (items : List (Option ℚ))
    (_h : items ≠ []) :
    calculateCategoryScore items =
      (jsRound ((items.map (fun s => s.getD 0)).sum / (items.length : ℚ)) : ℚ) ∧
    calculateCategoryScore [some 100, some 80, some 60] = 80 :=
  ⟨calculateCategoryScore_eq items, by with_unfolding_all decide⟩

/-- Witness for C2 at the concrete category scoring 100, 80, 60. -/
theorem calculateCategoryScore_rounded_mean_witness :
    calculateCategoryScore [some 100, some 80, some 60] =
      (jsRound ((([some 100, some 80, some 60] : List (Option ℚ)).map
          (fun s => s.getD 0)).sum /
        (([some 100, some 80, some 60] : List (Option ℚ)).length : ℚ)) : ℚ) ∧
    calculateCategoryScore [some 100, some 80, some 60] = 80 :=
  calculateCategoryScore_rounded_mean [some 100, some 80, some 60]
    (List.cons_ne_nil _ _)

theorem calculateScores_overall_eq (a : Audit) :
    (calculateScores (some a)).overall = specTwoStageOverall a := by
  unfold calculateScores specTwoStageOverall
  simp only [Audit.performanceScores, Audit.accessibilityScores,
    Audit.bestPracticesScores, Audit.seoScores, calculateCategoryScore_eq, listMean]
  norm_num

/-- C1: when an audit has been run, the overall score equals the rounded
mean of the four already-rounded category scores (two-stage rounding);
and at the concrete leaf-score assignment `exampleAudit` this two-stage
formula and the rounded mean of all leaf check scores differ by at least
1 point (25 versus 30). -/
theorem overall_uses_two_stage_rounding :
    (∀ a : Audit, (calculateScores (some a)).overall = specTwoStageOverall a) ∧
    specTwoStageOverall exampleAudit ≠ specSingleStageOverall exampleAudit ∧
    1 ≤ |specTwoStageOverall exampleAudit - specSingleStageOverall exampleAudit| :=
  ⟨calculateScores_overall_eq, by with_unfolding_all decide,
   by with_unfolding_all decide⟩

theorem checkHeadingStructure_errors_eq (d : Dom) :
    (checkHeadingStructure d).errors = levelJumpCountFrom 0 d.headingLevels := by
  unfold checkHeadingStructure
  dsimp only
  rw [headingScan_errors]
  exact Nat.zero_add _

theorem checkHeadingStructure_score_eq (d : Dom) :
    (checkHeadingStructure d).score =
      max 0 (100 - 20 * (levelJumpCountFrom 0 d.headingLevels : ℚ)) := by
  unfold checkHeadingStructure
  dsimp only
  rw [headingScan_errors, Nat.zero_add]
  by_cases h : d.headingLevels.length = 0
  · have hnil : d.headingLevels = [] := List.length_eq_zero.mp h
    rw [if_pos h, hnil]
    simp [levelJumpCountFrom]
  · rw [if_neg h, mul_comm]

/-- C5 counterexample: on a document whose only heading is an h2, the
check scores 80 (the code counts the first heading against an implicit
previous level of 0), while the claim's count — jumps from an actually
preceding heading — is 0, for which the claimed formula would give 100. -/
theorem checkHeadingStructure_first_heading_counterexample :
    (checkHeadingStructure loneH2Dom).score = 80 ∧
    specLevelJumpCount loneH2Dom.headingLevels = 0 ∧
    (checkHeadingStructure loneH2Dom).score ≠
      max 0 (100 - 20 * (specLevelJumpCount loneH2Dom.headingLevels : ℚ)) := by
  with_unfolding_all decide

/-- C5 (amended): the heading-structure check returns
`max 0 (100 - 20 * v)` where `v` counts headings whose level exceeds the
previous level by more than one, the level before the first heading
taken to be 0 (so a first heading deeper than h1 also counts); the
sequence h1, h2, h4 yields exactly one violation and score 80, and
h1, h2, h3 yields zero violations and score 100. -/
theorem checkHeadingStructure_penalty_spec :
    (∀ d : Dom,
      (checkHeadingStructure d).score =
        max 0 (100 - 20 * (levelJumpCountFrom 0 d.headingLevels : ℚ)) ∧
      (checkHeadingStructure d).errors = levelJumpCountFrom 0 d.headingLevels) ∧
    (checkHeadingStructure h124Dom).score = 80 ∧
    (checkHeadingStructure h124Dom).errors = 1 ∧
    (checkHeadingStructure h123Dom).score = 100 ∧
    (checkHeadingStructure h123Dom).errors = 0 :=
  ⟨fun d => ⟨checkHeadingStructure_score_eq d, checkHeadingStructure_errors_eq d⟩,
   by with_unfolding_all decide, by with_unfolding_all decide,
   by with_unfolding_all decide, by with_unfolding_all decide⟩

/-- C6: every check that averages over a collection of DOM elements
(image oversize, alt-text coverage, aria-label coverage, heading
structure) returns score 100 on the empty collection — no not-a-number
value can arise, the division being guarded — and the alt-text check on
4 images with 1 missing alt returns the rounded coverage percentage 75. -/
theorem empty_collection_checks_return_hundred :
    (∀ d : Dom,
      (d.images = [] → (checkImageOptimization d).score = 100) ∧
      (d.images = [] → (checkAltTags d).score = 100) ∧
      (d.interactive = [] → (checkAriaLabels d).score = 100) ∧
      (d.headingLevels = [] → (checkHeadingStructure d).score = 100)) ∧
    (checkAltTags fourImageDom).score = 75 := by
  constructor
  · intro d
    refine ⟨?_, ?_, ?_, ?_⟩
    · intro h
      simp [checkImageOptimization, h]
    · intro h
      simp [checkAltTags, h]
    · intro h
      simp [checkAriaLabels, h]
    · intro h
      simp [checkHeadingStructure, h]
  · with_unfolding_all decide

/-- Witness for C6 at the empty DOM, discharging each empty-collection
hypothesis. -/
theorem empty_collection_checks_return_hundred_witness :
    (checkImageOptimization emptyDom).score = 100 ∧
    (checkAltTags emptyDom).score = 100 ∧
    (checkAriaLabels emptyDom).score = 100 ∧
    (checkHeadingStructure emptyDom).score = 100 :=
  ⟨(empty_collection_checks_return_hundred.1 emptyDom).1 rfl,
   (empty_collection_checks_return_hundred.1 emptyDom).2.1 rfl,
   (empty_collection_checks_return_hundred.1 emptyDom).2.2.1 rfl,
   (empty_collection_checks_return_hundred.1 emptyDom).2.2.2 rfl⟩

/-- C7: `generateRecommendations` returns exactly the advisory strings
whose four conditions hold (image-optimization score below 80, CSS-size
score below 80, alt-text score below 100, meta-tags score below 100),
each contributing one fixed string in that fixed order starting from an
empty sequence, so the result has length at most 4; with no audit it
returns the empty sequence. -/
theorem generateRecommendations_conditions :
    generateRecommendations none = [] ∧
    ∀ a : Audit,
      generateRecommendations (some a) =
        (if a.imageOptimization.score < 80 then
          ["Optimize images by resizing to appropriate dimensions"] else []) ++
        (if a.cssSize.score < 80 then ["Minify and compress CSS files"] else []) ++
        (if a.altTags.score < 100 then ["Add alt text to all images"] else []) ++
        (if a.metaTags.score < 100 then
          ["Add missing meta tags (description, viewport)"] else []) ∧
      (generateRecommendations (some a)).length ≤ 4 := by
  refine ⟨rfl, fun a => ⟨?_, ?_⟩⟩
  · simp only [generateRecommendations]
    split_ifs <;> simp
  · simp only [generateRecommendations]
    split_ifs <;> simp

theorem measureFPSAux_spec (duration : ℚ) :
    ∀ (rest : List ℚ) (frames : ℕ) (st : ℚ), st ≠ 0 →
      measureFPSAux duration frames (some st) rest =
        (framesUntilResolve st duration rest).map
          (fun n => jsRound (((frames + n : ℕ) : ℚ) * 1000 / duration)) := by
  intro rest
  induction rest with
  | nil =>
    intro frames st hst
    rfl
  | cons t ts ih =>
    intro frames st hst
    have hfalsy : startTimeFalsy (some st) = false := by
      unfold startTimeFalsy
      simp [hst]
    unfold measureFPSAux framesUntilResolve
    rw [hfalsy]
    simp only [Bool.false_eq_true, if_false, Option.getD_some]
    by_cases hlt : t - st < duration
    · rw [if_pos hlt, if_pos hlt, ih (frames + 1) st hst]
      cases hfr : framesUntilResolve st duration ts with
      | none => simp
      | some n =>
        simp only [Option.map_some']
        congr 2
        push_cast
        ring
    · rw [if_neg hlt, if_neg hlt]
      simp

/-- C8 counterexample: two callbacks at 100 and 1600. Only one fires
within the 1000 ms window starting at the first callback's timestamp,
yet the code also counts the resolving callback at 1600, returns
`round(2 * 1000 / 1000) = 2`, and thus disagrees with the claimed
count-of-callbacks-within-the-window formula, which gives 1. -/
theorem measureFPS_window_counterexample :
    measureFPS 1000 [(100 : ℚ), 1600] = some 2 ∧
    windowFrameCount 1000 [(100 : ℚ), 1600] = 1 ∧
    measureFPS 1000 [(100 : ℚ), 1600] ≠
      some (jsRound ((windowFrameCount 1000 [(100 : ℚ), 1600] : ℚ) * 1000 / 1000)) := by
  with_unfolding_all decide

/-- C8 (amended): for a first callback with nonzero timestamp, the
window starts at that first callback's timestamp (not at call time), the
promise resolves exactly once — at the first callback whose timestamp
has reached or passed the window end — and the result is
`round(frames * 1000 / duration)` where `frames` counts the callbacks up
to and including that resolving callback (one more than the callbacks
strictly inside the window when the resolving callback overshoots the
end); 60 evenly spaced callbacks spanning a 1000 ms window yield 60. -/
theorem measureFPS_resolve_spec :
    (∀ (duration t0 : ℚ) (rest : List ℚ), t0 ≠ 0 →
      measureFPS duration (t0 :: rest) =
        (framesUntilResolve t0 duration (t0 :: rest)).map
          (fun n => jsRound ((n : ℚ) * 1000 / duration))) ∧
    measureFPS 1000 evenFrames = some 60 := by
  constructor
  · intro duration t0 rest ht0
    unfold measureFPS measureFPSAux framesUntilResolve
    simp only [startTimeFalsy, if_true, Option.getD_some]
    by_cases hlt : t0 - t0 < duration
    · rw [if_pos hlt, if_pos hlt, measureFPSAux_spec duration rest 1 t0 ht0]
      cases hfr : framesUntilResolve t0 duration rest with
      | none => simp
      | some n =>
        simp only [Option.map_some']
        congr 2
        push_cast
        ring
    · rw [if_neg hlt, if_neg hlt]
      simp
  · with_unfolding_all decide

/-- Witness for C8 at duration 1000, first callback 100 and one later
callback 1600, discharging the nonzero-first-timestamp hypothesis. -/
theorem measureFPS_resolve_spec_witness :
    measureFPS 1000 ((100 : ℚ) :: [1600]) =
      (framesUntilResolve 100 1000 ((100 : ℚ) :: [1600])).map
        (fun n => jsRound ((n : ℚ) * 1000 / 1000)) :=
  measureFPS_resolve_spec.1 1000 100 [1600] (by norm_num)

theorem lookupType_insertResource (r : ResourceEntry) (t : String) :
    ∀ acc : List (String × ResourceSummary),
      lookupType t (insertResource acc r) =
        if r.type = t then
          some (addToSummary ((lookupType t acc).getD emptySummary) r)
        else lookupType t acc := by
  intro acc
  induction acc with
  | nil =>
    simp only [insertResource, lookupType]
    by_cases h : r.type = t
    · simp [h, emptySummary]
    · simp [h]
  | cons p rest ih =>
    obtain ⟨k, s⟩ := p
    simp only [insertResource]
    by_cases hk : k = r.type
    · subst hk
      rw [if_pos rfl]
      by_cases ht : r.type = t
      · simp [lookupType, ht]
      · simp [lookupType, ht]
    · rw [if_neg hk]
      by_cases ht : k = t
      · subst ht
        have hrt : ¬(r.type = k) := fun hc => hk hc.symm
        simp [lookupType, hrt]
      · simp [lookupType, ht, ih]

theorem lookupType_groupAux (t : String) :
    ∀ (entries : List ResourceEntry) (acc : List (String × ResourceSummary)),
      lookupType t (entries.foldl insertResource acc) =
        if entries.filter (fun x => decide (x.type = t)) = [] then lookupType t acc
        else some ((entries.filter (fun x => decide (x.type = t))).foldl addToSummary
          ((lookupType t acc).getD emptySummary)) := by
  intro entries
  induction entries with
  | nil =>
    intro acc
    simp
  | cons e es ih =>
    intro acc
    rw [List.foldl_cons, ih, lookupType_insertResource]
    by_cases he : e.type = t
    · by_cases hes : es.filter (fun x => decide (x.type = t)) = []
      · simp [List.filter_cons, he, hes, List.foldl_cons]
      · simp [List.filter_cons, he, hes, List.foldl_cons]
    · simp [List.filter_cons, he]

theorem lookupType_groupResources (t : String) (entries : List ResourceEntry) :
    lookupType t (groupResources entries) =
      if entries.filter (fun x => decide (x.type = t)) = [] then none
      else some ((entries.filter (fun x => decide (x.type = t))).foldl addToSummary
        emptySummary) := by
  unfold groupResources
  rw [lookupType_groupAux]
  rfl

theorem foldl_addToSummary_count (fs : List ResourceEntry) :
    ∀ s : ResourceSummary, (fs.foldl addToSummary s).count = s.count + fs.length := by
  induction fs with
  | nil => intro s; simp
  | cons f rest ih =>
    intro s
    rw [List.foldl_cons, ih]
    simp [addToSummary]
    omega

theorem foldl_addToSummary_totalSize (fs : List ResourceEntry) :
    ∀ s : ResourceSummary,
      (fs.foldl addToSummary s).totalSize =
        s.totalSize + (fs.map ResourceEntry.size).sum := by
  induction fs with
  | nil => intro s; simp
  | cons f rest ih =>
    intro s
    rw [List.foldl_cons, ih]
    simp [addToSummary]
    ring

theorem foldl_addToSummary_items (fs : List ResourceEntry) :
    ∀ s : ResourceSummary, (fs.foldl addToSummary s).items = s.items ++ fs := by
  induction fs with
  | nil => intro s; simp
  | cons f rest ih =>
    intro s
    rw [List.foldl_cons, ih]
    simp [addToSummary]

theorem keys_insertResource (r : ResourceEntry) :
    ∀ acc : List (String × ResourceSummary),
      (insertResource acc r).map Prod.fst =
        if r.type ∈ acc.map Prod.fst then acc.map Prod.fst
        else acc.map Prod.fst ++ [r.type] := by
  intro acc
  induction acc with
  | nil => simp [insertResource]
  | cons p rest ih =>
    obtain ⟨k, s⟩ := p
    simp only [insertResource]
    by_cases hk : k = r.type
    · subst hk
      simp
    · rw [if_neg hk]
      have hne : ¬(r.type = k) := fun hc => hk hc.symm
      simp only [List.map_cons, ih]
      by_cases hmem : r.type ∈ rest.map Prod.fst
      · simp [hmem, hne]
      · simp [hmem, hne]

theorem nodup_keys_groupAux :
    ∀ (entries : List ResourceEntry) (acc : List (String × ResourceSummary)),
      (acc.map Prod.fst).Nodup → ((entries.foldl insertResource acc).map Prod.fst).Nodup := by
  intro entries
  induction entries with
  | nil =>
    intro acc h
    exact h
  | cons e es ih =>
    intro acc h
    rw [List.foldl_cons]
    apply ih
    rw [keys_insertResource]
    split_ifs with hmem
    · exact h
    · simp only [List.nodup_append, List.nodup_cons, List.nodup_nil]
      exact ⟨h, by simp, by simpa using hmem⟩

theorem keys_setAverageTimes (acc : List (String × ResourceSummary)) :
    (setAverageTimes acc).map Prod.fst = acc.map Prod.fst := by
  simp [setAverageTimes, List.map_map, Function.comp]

theorem lookupType_setAverageTimes (t : String) :
    ∀ acc : List (String × ResourceSummary),
      lookupType t (setAverageTimes acc) =
        (lookupType t acc).map withAverageTime := by
  intro acc
  induction acc with
  | nil => rfl
  | cons p rest ih =>
    obtain ⟨k, s⟩ := p
    simp only [setAverageTimes, List.map_cons, lookupType] at ih ⊢
    by_cases ht : k = t
    · simp [ht]
    · simp [ht, ih]

theorem filter_map_toResourceEntry (t : String) (rs : List PerfResource) :
    (rs.map toResourceEntry).filter (fun x => decide (x.type = t)) =
      (rs.filter (fun r => decide (r.initiatorType = t))).map toResourceEntry := by
  induction rs with
  | nil => rfl
  | cons r rest ih =>
    simp only [List.map_cons, List.filter_cons]
    by_cases h : r.initiatorType = t
    · simp [toResourceEntry, h, ih]
    · simp [toResourceEntry, h, ih]

/-- C9: `measureResources` produces one summary bucket per distinct
entry type (no duplicate keys; a key exists exactly when an entry of
that type does), where each bucket's count is the number of entries of
that type, totalSize the sum of their sizes, items those entries in
order, and averageTime the arithmetic mean of their durations; two
entries of type "script" with durations 100 and 300 and sizes 10 and 20
produce the summary bucket with count 2, totalSize 30, averageTime 200. -/
theorem measureResources_grouping :
    (∀ (resources : List PerfResource) (t : String),
      ((resourceSummary resources).map Prod.fst).Nodup ∧
      (lookupType t (resourceSummary resources) = none ↔
        resources.filter (fun r => decide (r.initiatorType = t)) = []) ∧
      (∀ s, lookupType t (resourceSummary resources) = some s →
        s.count = (resources.filter (fun r => decide (r.initiatorType = t))).length ∧
        s.totalSize =
          ((resources.filter (fun r => decide (r.initiatorType = t))).map
            (fun r => numOrZero r.transferSize)).sum ∧
        s.items =
          (resources.filter (fun r => decide (r.initiatorType = t))).map
            toResourceEntry ∧
        s.averageTime =
          ((resources.filter (fun r => decide (r.initiatorType = t))).map
            PerfResource.duration).sum /
            ((resources.filter (fun r => decide (r.initiatorType = t))).length : ℚ))) ∧
    resourceSummary [scriptResourceA, scriptResourceB] =
      [("script",
        ⟨2, 30, 200, [toResourceEntry scriptResourceA, toResourceEntry scriptResourceB]⟩)] := by
  constructor
  · intro resources t
    have hl : lookupType t (resourceSummary resources) =
        (lookupType t (groupResources (resources.map toResourceEntry))).map
          withAverageTime :=
      lookupType_setAverageTimes t _
    rw [lookupType_groupResources, filter_map_toResourceEntry] at hl
    refine ⟨?_, ?_, ?_⟩
    · have hkeys : (resourceSummary resources).map Prod.fst =
          (groupResources (resources.map toResourceEntry)).map Prod.fst :=
        keys_setAverageTimes _
      rw [hkeys]
      exact nodup_keys_groupAux _ [] (by simp)
    · rw [hl]
      by_cases hnil : resources.filter (fun r => decide (r.initiatorType = t)) = []
      · simp [hnil]
      · simp [hnil]
    · intro s hs
      rw [hl] at hs
      by_cases hnil : resources.filter (fun r => decide (r.initiatorType = t)) = []
      · rw [if_pos (by simp [hnil])] at hs
        exact absurd hs (by simp)
      · rw [if_neg (by simp [hnil])] at hs
        simp only [Option.map_some'] at hs
        obtain rfl := (Option.some.inj hs)
        refine ⟨?_, ?_, ?_, ?_⟩
        · simp only [withAverageTime]
          rw [foldl_addToSummary_count]
          simp [emptySummary]
        · simp only [withAverageTime]
          rw [foldl_addToSummary_totalSize]
          have hf : ResourceEntry.size ∘ toResourceEntry =
              fun r : PerfResource => numOrZero r.transferSize := funext fun r => rfl
          simp [emptySummary, List.map_map, hf]
        · simp only [withAverageTime]
          rw [foldl_addToSummary_items]
          simp [emptySummary]
        · simp only [withAverageTime]
          rw [foldl_addToSummary_items, foldl_addToSummary_count, foldl_add_eq_sum]
          have hf : ResourceEntry.duration ∘ toResourceEntry =
              fun r : PerfResource => r.duration := funext fun r => rfl
          simp [emptySummary, List.map_map, hf]
  · with_unfolding_all decide

/-- Witness for C9 at the two concrete script resources, the bucket
keyed "script" having count 2, totalSize 30 and averageTime 200. -/
theorem measureResources_grouping_witness :
    (⟨2, 30, 200, [toResourceEntry scriptResourceA, toResourceEntry scriptResourceB]⟩ :
        ResourceSummary).count =
      ([scriptResourceA, scriptResourceB].filter
        (fun r => decide (r.initiatorType = "script"))).length ∧
    (⟨2, 30, 200, [toResourceEntry scriptResourceA, toResourceEntry scriptResourceB]⟩ :
        ResourceSummary).totalSize =
      (([scriptResourceA, scriptResourceB].filter
        (fun r => decide (r.initiatorType = "script"))).map
        (fun r => numOrZero r.transferSize)).sum ∧
    (⟨2, 30, 200, [toResourceEntry scriptResourceA, toResourceEntry scriptResourceB]⟩ :
        ResourceSummary).items =
      ([scriptResourceA, scriptResourceB].filter
        (fun r => decide (r.initiatorType = "script"))).map toResourceEntry ∧
    (⟨2, 30, 200, [toResourceEntry scriptResourceA, toResourceEntry scriptResourceB]⟩ :
        ResourceSummary).averageTime =
      (([scriptResourceA, scriptResourceB].filter
        (fun r => decide (r.initiatorType = "script"))).map
        PerfResource.duration).sum /
        (([scriptResourceA, scriptResourceB].filter
          (fun r => decide (r.initiatorType = "script"))).length : ℚ) :=
  (measureResources_grouping.1 [scriptResourceA, scriptResourceB] "script").2.2
    ⟨2, 30, 200, [toResourceEntry scriptResourceA, toResourceEntry scriptResourceB]⟩
    (by with_unfolding_all decide)

theorem checkCSSSize_size_eq (d : Dom) :
    (checkCSSSize d).size = 5000 * ((cssCountedLinks d).length : ℚ) := by
  unfold checkCSSSize cssCountedLinks
  dsimp only
  rw [foldl_cssSize]
  exact zero_add _

theorem checkCSSSize_score_eq (d : Dom) :
    (checkCSSSize d).score =
      if 5000 * ((cssCountedLinks d).length : ℚ) < 10000 then 100
      else max 0 (100 - (5000 * ((cssCountedLinks d).length : ℚ) - 10000) / 1000) := by
  unfold checkCSSSize cssCountedLinks
  dsimp only
  rw [foldl_cssSize, zero_add]

/-- C10: in `checkCSSSize`, a stylesheet link with no (truthy) href or
whose href contains `fonts.googleapis.com` contributes nothing while
every other stylesheet link contributes exactly 5000 simulated bytes
(`size = 5000 * n` over the counted links); with `n` counted links the
score is 100 when `n ≤ 2` and `max 0 (100 - (5000 n - 10000) / 1000)`
otherwise; and a page whose only stylesheet links point at Google Fonts
always scores 100. -/
theorem checkCSSSize_budget_spec (d : Dom) :
    (checkCSSSize d).size = 5000 * ((cssCountedLinks d).length : ℚ) ∧
    ((cssCountedLinks d).length ≤ 2 → (checkCSSSize d).score = 100) ∧
    (2 < (cssCountedLinks d).length →
      (checkCSSSize d).score =
        max 0 (100 - (5000 * ((cssCountedLinks d).length : ℚ) - 10000) / 1000)) ∧
    ((∀ l ∈ d.links, l.rel = "stylesheet" →
        ∃ h, l.href = some h ∧ strIncludes h "fonts.googleapis.com" = true) →
      (checkCSSSize d).score = 100) := by
  refine ⟨checkCSSSize_size_eq d, ?_, ?_, ?_⟩
  · intro hn
    rw [checkCSSSize_score_eq]
    by_cases hlt : 5000 * ((cssCountedLinks d).length : ℚ) < 10000
    · rw [if_pos hlt]
    · rw [if_neg hlt]
      have h2 : (cssCountedLinks d).length = 2 := by
        have hge : 2 ≤ (cssCountedLinks d).length := by
          by_contra hc
          push_neg at hc
          apply hlt
          have hq : ((cssCountedLinks d).length : ℚ) ≤ 1 := by
            exact_mod_cast Nat.lt_succ_iff.mp hc
          nlinarith
        omega
      rw [h2]
      norm_num
  · intro hgt
    rw [checkCSSSize_score_eq]
    rw [if_neg]
    push_neg
    have hq : (3 : ℚ) ≤ ((cssCountedLinks d).length : ℚ) := by
      exact_mod_cast hgt
    nlinarith
  · intro hall
    have hzero : cssCountedLinks d = [] := by
      unfold cssCountedLinks
      rw [List.filter_eq_nil_iff]
      intro l hl
      have hmem : l ∈ d.links := List.mem_of_mem_filter hl
      have hrel : l.rel = "stylesheet" := by
        have := List.of_mem_filter hl
        simpa using this
      obtain ⟨hh, hrefEq, hinc⟩ := hall l hmem hrel
      simp [countsTowardCSSSize, hrefProp, hrefEq, hinc]
    rw [checkCSSSize_score_eq, hzero]
    norm_num

/-- Witness for C10: the empty page scores 100, a page with three
counted stylesheet links gets the linear-penalty formula, and a page
whose only stylesheet links point at Google Fonts scores 100. -/
theorem checkCSSSize_budget_spec_witness :
    (checkCSSSize emptyDom).score = 100 ∧
    (checkCSSSize threeCssDom).score =
      max 0 (100 - (5000 * ((cssCountedLinks threeCssDom).length : ℚ) - 10000) / 1000) ∧
    (checkCSSSize googleFontsDom).score = 100 :=
  ⟨(checkCSSSize_budget_spec emptyDom).2.1 (by with_unfolding_all decide),
   (checkCSSSize_budget_spec threeCssDom).2.2.1 (by with_unfolding_all decide),
   (checkCSSSize_budget_spec googleFontsDom).2.2.2 (by
     intro l hl hrel
     have hl' : l ∈
         [({ rel := "stylesheet",
             href := some "https://fonts.googleapis.com/css?family=Inter" } : LinkElement),
          { rel := "stylesheet",
            href := some "https://fonts.googleapis.com/css?family=Lato" }] := hl
     fin_cases hl'
     · exact ⟨"https://fonts.googleapis.com/css?family=Inter", rfl,
         by with_unfolding_all decide⟩
     · exact ⟨"https://fonts.googleapis.com/css?family=Lato", rfl,
         by with_unfolding_all decide⟩)⟩
